import Mathlib

/-!
Shallow embedding of the crisis detection and escalation engine of
`backend/guardrailes/crisis_detector.py` (class `CrisisDetectionSystem`),
together with theorems settling the specification claims about it.

Modelling conventions:
* Python floats are modelled as exact rationals (`ℚ`); all constants of the
  source (0.3, 0.5, 0.4, 1.2, the pattern weights and the thresholds) are
  short decimal fractions, represented exactly.
* Python `dict`s are modelled as insertion-ordered association lists with
  Python's update semantics (existing key: value replaced in place; new key:
  appended at the end).
* Python strings are `String`; `str.lower()` is modelled by mapping
  `Char.toLower` over the characters (the identity on the Arabic corpus of
  the tables, and ASCII-correct).
* Python's `re.findall(pattern, text, re.IGNORECASE)` is modelled for the
  regex subset actually used by the Pattern Table — every pattern has the
  shape `(lit|…|lit).*(lit|…|lit)` — by an executable backtracking matcher
  (`re_findall_count`), which like `re.findall` receives the *raw pattern
  string* and compiles it on every call; a syntactically invalid pattern
  makes the call fail (`Except.error`), mirroring `re.error` being raised
  at call time.
* The `timestamp` field of session records and the matched-literal lists
  (`keywords_found`, `patterns_found`, `expressions_found`) are
  observability-only and are not consulted by any logic; they are omitted.
-/

/-- Mirror of the Python enum `CrisisType`. -/
inductive CrisisType where
  | suicide
  | self_harm
  | violence
  | severe_depression
  | psychosis
  | substance_abuse
  | eating_disorder
deriving DecidableEq, Repr

/-- Mirror of the Python enum `CrisisLevel`. -/
inductive CrisisLevel where
  | low
  | medium
  | high
  | critical
deriving DecidableEq, Repr

/-- The `.value` string of each `CrisisType` member. -/
def CrisisType.value : CrisisType → String
  | .suicide => "suicide"
  | .self_harm => "self_harm"
  | .violence => "violence"
  | .severe_depression => "severe_depression"
  | .psychosis => "psychosis"
  | .substance_abuse => "substance_abuse"
  | .eating_disorder => "eating_disorder"

/-- Model of Python `str.lower()` (identity on the Arabic corpus). -/
def py_lower (s : String) : String := String.map Char.toLower s

/-- Case-sensitive check that `nee` is an initial segment of `hay`
(used to model Python's `in` operator on the lowered operands). -/
def lit_at : List Char → List Char → Bool
  | _, [] => true
  | [], _ :: _ => false
  | h :: t, a :: b => (a == h) && lit_at t b

/-- Model of Python's `nee in hay` substring test. -/
def occurs_in : List Char → List Char → Bool
  | [], nee => nee.isEmpty
  | h :: t, nee => lit_at (h :: t) nee || occurs_in t nee

/-- Substring test on `String`s, modelling `needle in haystack`. -/
def str_in (needle haystack : String) : Bool :=
  occurs_in haystack.data needle.data

/-- The static keyword table of `_build_crisis_keywords`, in the source's
dict insertion order.  Note that `VIOLENCE` has keywords but
`EATING_DISORDER` has no entry at all, exactly as in the source. -/
def crisis_keywords : List (CrisisType × List String) :=
  [ (.suicide,
      [ "أريد أن أموت", "بدي أموت", "نفسي أموت", "أقتل نفسي",
        "سأقتل نفسي", "أنتحر", "انتحار", "أنهي حياتي",
        "لا أريد أن أعيش", "مللت من الحياة", "الموت أحسن",
        "أستحق الموت", "العالم أحسن بدوني", "أذهب للأبد",
        "لا فائدة من وجودي", "محد يحتاجني", "عبء على الجميع",
        "أرتاح لو مت", "أتمنى أنام ولا أصحى", "خلصت من الدنيا",
        "نهاية المطاف", "آخر خيار", "حل نهائي", "راحة أبدية",
        "أخطط لـ", "قررت أن", "لن أكون هنا", "وداعاً للجميع",
        "آخر رسالة", "توديع", "وصية", "انتهى كل شيء" ]),
    (.self_harm,
      [ "أؤذي نفسي", "أجرح نفسي", "أقطع نفسي", "أضرب نفسي",
        "أحرق نفسي", "أعذب نفسي", "أكسر", "أخدش",
        "سكين", "شفرة", "حرق", "ضرب", "عض", "خدش",
        "أستحق الألم", "أعاقب نفسي", "أستحق العذاب",
        "ألم جسدي", "أشعر بالألم", "دم", "جروح", "ندوب",
        "أريد أن أشعر بشيء", "ألم حقيقي", "ألم أستطيع رؤيته",
        "طريقة للتحكم", "الألم الوحيد", "أتحكم في ألمي" ]),
    (.violence,
      [ "سأقتل", "أريد أن أؤذي", "سأضرب", "سأدمر",
        "أنتقم", "سأؤذي من", "أقتله", "أكسر رأسه",
        "أفجر", "أحرق", "أدمر كل شيء", "أنهي الجميع",
        "لا أستطيع التحكم", "سأفقد السيطرة", "غضب شديد",
        "أعمى من الغضب", "سأفعل شيئاً سيئاً", "أفقد عقلي" ]),
    (.severe_depression,
      [ "لا أمل", "لا فائدة", "مستحيل", "ميؤوس منه",
        "الظلام فقط", "لا ضوء", "نفق مظلم", "لا مخرج",
        "مسدود الأفق", "لا حل", "انتهى كل شيء",
        "لا قيمة لي", "فاشل", "عديم الفائدة", "لا أستحق",
        "أسوأ شخص", "لا أصلح لشيء", "عبء على الجميع",
        "وحيد تماماً", "محد يفهمني", "محد يحبني", "منبوذ",
        "لا أحد يهتم", "معزول", "منفرد", "وحش" ]),
    (.psychosis,
      [ "أسمع أصوات", "أرى أشياء", "يراقبونني", "يتجسسون",
        "مؤامرة ضدي", "يطاردونني", "صوت يقول لي",
        "أشياء غريبة", "لست حقيقي", "العالم ليس حقيقي",
        "أفكاري مختلطة", "لا أفهم نفسي", "كلام غير منطقي",
        "رسائل خفية", "معاني مخفية", "علامات" ]),
    (.substance_abuse,
      [ "أفرط في", "إدمان", "مخدرات", "كحول", "حبوب",
        "لا أستطيع التوقف", "أحتاج المزيد", "انسحاب",
        "جرعة زائدة", "تسمم", "أعراض", "اعتماد" ]) ]

/-- The static Omani dialect table of `_build_omani_crisis_expressions`. -/
def omani_crisis_expressions : List (CrisisType × List String) :=
  [ (.suicide,
      [ "خلاص تعبت من الدنيا", "ما عد أقدر أكمل",
        "أرتاح لو رحت", "مللت من كل شي", "ما لي فايدة",
        "الموت أحسن لي", "خلصت من هالحياة" ]),
    (.self_harm,
      [ "أعذب روحي", "أوجع نفسي", "أضر بروحي",
        "أستاهل الألم", "ألم أحسه بجسمي" ]),
    (.severe_depression,
      [ "محطم نفسياً واجد", "ضايق صدري مرة", "قلبي مكسور",
        "حالتي زينة ما هي", "نفسيتي في الأرض", "دايخ من الهموم" ]),
    (.violence,
      [ "راح أكسر كل شي", "أفجر فيهم", "أورجيهم",
        "أخليهم يندمون", "ما راح أسكت" ]) ]

/-- A channel result: the `scores` dict of `_check_crisis_keywords` /
`_check_crisis_patterns` / `_check_omani_expressions`, as an
insertion-ordered association list; the `types` list of the source is its
list of keys. -/
abbrev ChannelResult := List (CrisisType × ℚ)

/-- Model of Python `results.get("scores", {}).get(t, 0)`. -/
def ch_get (r : ChannelResult) (t : CrisisType) : ℚ :=
  match r.lookup t with
  | some v => v
  | none => 0

/-- The inner loop of `_check_crisis_keywords`: one point per keyword of
the list that occurs in the (already lowered) text. -/
def keyword_score (text : String) (kws : List String) : ℚ :=
  kws.foldl (fun s kw => if str_in (py_lower kw) text then s + 1 else s) 0

/-- Mirror of `_check_crisis_keywords`: for each crisis type of the table,
count matching keywords; types with score 0 are absent from the result. -/
def check_crisis_keywords (text : String) : ChannelResult :=
  crisis_keywords.foldl
    (fun acc p =>
      let score := keyword_score text p.2
      if 0 < score then acc ++ [(p.1, score)] else acc)
    []

/-- The inner loop of `_check_omani_expressions`: 1.2 points per matching
dialect expression. -/
def dialect_score (text : String) (exprs : List String) : ℚ :=
  exprs.foldl (fun s e => if str_in (py_lower e) text then s + 1.2 else s) 0

/-- Mirror of `_check_omani_expressions`. -/
def check_omani_expressions (text : String) : ChannelResult :=
  omani_crisis_expressions.foldl
    (fun acc p =>
      let score := dialect_score text p.2
      if 0 < score then acc ++ [(p.1, score)] else acc)
    []

/-! ## Model of the `re` library for the pattern subset of the table

Every pattern of `_build_crisis_patterns` has the shape
`(lit|…|lit).*(lit|…|lit)`.  `compile_pattern` parses exactly that shape
(rejecting anything else, in particular syntactically broken patterns such
as an unclosed `"("`); `re_findall_count` models
`len(re.findall(pattern, text, re.IGNORECASE))`: left-to-right scan for
non-overlapping matches, alternatives tried in order, greedy `.*` that
does not cross a newline, continuing after each match's end. -/

/-- A compiled pattern `(left₁|…).*(right₁|…)`. -/
structure CPat where
  left : List (List Char)
  right : List (List Char)
deriving Repr, DecidableEq

/-- Characters with a regex meaning: a literal alternative may not contain
any of them (otherwise the pattern is outside the modelled subset). -/
def regex_meta : List Char := ['(', ')', '|', '.', '*', '+', '?', '[', ']', '\\', '^']

/-- Split off the part of `l` before the first occurrence of `c`;
`none` when `c` does not occur. -/
def break_on (c : Char) : List Char → Option (List Char × List Char)
  | [] => none
  | x :: xs =>
    if x == c then some ([], xs)
    else match break_on c xs with
      | some (a, b) => some (x :: a, b)
      | none => none

/-- Split `l` at every `'|'`. -/
def split_pipe : List Char → List (List Char)
  | [] => [[]]
  | x :: xs =>
    if x == '|' then [] :: split_pipe xs
    else match split_pipe xs with
      | [] => [[x]]
      | a :: rest => (x :: a) :: rest

/-- Parse a group body into its alternatives: each must be a nonempty
literal containing no metacharacter. -/
def parse_alts (body : List Char) : Option (List (List Char)) :=
  let parts := split_pipe body
  if parts.all (fun p => !p.isEmpty && p.all (fun c => !regex_meta.contains c)) then
    some parts
  else none

/-- Model of `re.compile` restricted to the subset `(alt|…).*(alt|…)` used
by the Pattern Table; `none` models `re.error` (invalid or unsupported
syntax). -/
def compile_pattern (p : String) : Option CPat :=
  match p.data with
  | '(' :: rest =>
    match break_on ')' rest with
    | some (a, '.' :: '*' :: '(' :: rest2) =>
      match break_on ')' rest2 with
      | some (b, []) =>
        match parse_alts a, parse_alts b with
        | some la, some lb => some ⟨la, lb⟩
        | _, _ => none
      | _ => none
    | _ => none
  | _ => none

/-- Case-insensitive variant of `lit_at` (for `re.IGNORECASE`). -/
def lit_at_ci : List Char → List Char → Bool
  | _, [] => true
  | [], _ :: _ => false
  | h :: t, a :: b => (a.toLower == h.toLower) && lit_at_ci t b

/-- Does some alternative of `alts` (tried in order) match at position `j`?
Returns the end position of the match. -/
def try_alts (t : List Char) (j : Nat) (alts : List (List Char)) : Option Nat :=
  alts.findSome? (fun b => if lit_at_ci (t.drop j) b then some (j + b.length) else none)

/-- Greedy `.*` between position `q` and the right-hand group: try the gap
end `j` from the largest newline-free extent down to `q`. -/
def try_dot_star (t : List Char) (q : Nat) (alts : List (List Char)) : Option Nat :=
  let maxJ := q + ((t.drop q).takeWhile (fun c => c != '\n')).length
  (List.range (maxJ - q + 1)).findSome? (fun k => try_alts t (maxJ - k) alts)

/-- Try to match the whole pattern starting at position `p`; the result is
the end position of the match. -/
def match_at (cp : CPat) (t : List Char) (p : Nat) : Option Nat :=
  cp.left.findSome? (fun a =>
    if lit_at_ci (t.drop p) a then try_dot_star t (p + a.length) cp.right else none)

/-- Scan loop of `re.findall`: count non-overlapping matches left to
right; fuel bounds the number of scan positions. -/
def findall_loop (cp : CPat) (t : List Char) : Nat → Nat → Nat
  | 0, _ => 0
  | fuel + 1, p =>
    if t.length < p then 0
    else match match_at cp t p with
      | some e => 1 + findall_loop cp t fuel (if e ≤ p then p + 1 else e)
      | none => findall_loop cp t fuel (p + 1)

/-- Number of non-overlapping matches of the compiled pattern in `t`. -/
def findall_count (cp : CPat) (t : List Char) : Nat :=
  findall_loop cp t (t.length + 2) 0

/-- Model of `len(re.findall(pattern, text, re.IGNORECASE))`: the pattern
string is compiled on this very call; a broken pattern makes the call
fail, as `re.findall` raises `re.error` at call time. -/
def re_findall_count (pattern : String) (text : String) : Except String Nat :=
  match compile_pattern pattern with
  | some cp => .ok (findall_count cp text.data)
  | none => .error pattern

/-- The static Pattern Table of `_build_crisis_patterns`: raw regex source
strings with crisis type and severity weight, in the source's dict
insertion order.  Exactly as in the Python constructor, the strings are
stored uncompiled and unvalidated. -/
def crisis_patterns : List (String × CrisisType × ℚ) :=
  [ ("(أريد|بدي|نفسي).*(أموت|أقتل نفسي|أنتحر)", .suicide, 0.9),
    ("(سأقتل|راح أقتل).*(نفسي|روحي)", .suicide, 0.95),
    ("(لا أريد|ما بدي).*(أعيش|أكمل|أستمر)", .suicide, 0.8),
    ("(أؤذي|أجرح|أقطع).*(نفسي|روحي)", .self_harm, 0.85),
    ("(شفرة|سكين|حرق).*(نفس|جسم)", .self_harm, 0.8),
    ("(سأقتل|راح أقتل|أقتل).*(كل|جميع|الناس)", .violence, 0.9),
    ("(أؤذي|أضرب|أكسر).*(أحد|شخص|واحد)", .violence, 0.7),
    ("(لا أمل|لا فائدة|مستحيل).*(نهائياً|أبداً|تماماً)", .severe_depression, 0.7),
    ("(عبء|فاشل|عديم).*(الجميع|الكل|الناس)", .severe_depression, 0.6) ]

/-- Accumulate `len(matches) * weight` onto the score of `t`, registering
the type on first contribution (mirrors the `if type_name not in
results["scores"]` block of `_check_crisis_patterns`). -/
def add_pattern_score (acc : ChannelResult) (t : CrisisType) (v : ℚ) : ChannelResult :=
  if acc.any (fun p => p.1 == t) then
    acc.map (fun p => if p.1 == t then (p.1, p.2 + v) else p)
  else acc ++ [(t, v)]

/-- Mirror of `_check_crisis_patterns` over an arbitrary pattern table:
for each entry, `re.findall` on the raw pattern string (compiled on this
call); contributions of entries with the same type accumulate.  An
invalid pattern aborts the call with an error, as in Python. -/
def check_crisis_patterns_with (table : List (String × CrisisType × ℚ))
    (text : String) : Except String ChannelResult :=
  table.foldlM
    (fun acc e => do
      let n ← re_findall_count e.1 text
      if 0 < n then pure (add_pattern_score acc e.2.1 (n * e.2.2)) else pure acc)
    []

/-- Mirror of `_check_crisis_patterns` on the engine's own table. -/
def check_crisis_patterns (text : String) : Except String ChannelResult :=
  check_crisis_patterns_with crisis_patterns text

/-! ## Fusion, level classifier, session tracker, resources, assessment -/

/-- The fused result of `_calculate_combined_score` (the detail fields
`keyword_details` etc. are the inputs themselves and are omitted). -/
structure FusedScore where
  types : List CrisisType
  scores : List (CrisisType × ℚ)
  total_score : ℚ
deriving Repr, DecidableEq

/-- Mirror of `_calculate_combined_score`: union of the types reported by
any channel; per type, keyword score × 0.3 + pattern score × 0.5 +
dialect score × 0.4 (a channel without that type contributes 0 through
`ch_get`); total = sum over all collected types. -/
def calculate_combined_score (kw pat dia : ChannelResult) : FusedScore :=
  let all_types := (kw.map Prod.fst ++ pat.map Prod.fst ++ dia.map Prod.fst).dedup
  let scores := all_types.map
    (fun t => (t, ch_get kw t * 0.3 + ch_get pat t * 0.5 + ch_get dia t * 0.4))
  { types := all_types
    scores := scores
    total_score := (scores.map Prod.snd).sum }

/-- Mirror of `_determine_crisis_level`: the ordered rule chain of the
source, early returns encoded as nested conditionals. -/
def determine_crisis_level (total_score : ℚ) (detected_types : List CrisisType) : CrisisLevel :=
  if 3.0 ≤ total_score then .critical
  else if .suicide ∈ detected_types ∧ 2.0 ≤ total_score then .critical
  else if .violence ∈ detected_types ∧ 2.5 ≤ total_score then .critical
  else if 2.0 ≤ total_score then .high
  else if (.suicide ∈ detected_types ∨ .self_harm ∈ detected_types) ∧ 1.0 ≤ total_score then .high
  else if 1.0 ≤ total_score then .medium
  else if .severe_depression ∈ detected_types ∧ 0.5 ≤ total_score then .medium
  else .low

/-- One entry of a session's history (the `timestamp` field of the source
is never consulted and is omitted). -/
structure SessionRecord where
  score : ℚ
  types : List CrisisType
deriving Repr, DecidableEq

/-- The `session_history` dict: session id → history, insertion ordered. -/
abbrev SessionMap := List (String × List SessionRecord)

/-- Python dict assignment `d[k] = v`: replace in place, or append. -/
def dict_set {κ α : Type} [BEq κ] (d : List (κ × α)) (k : κ) (v : α) : List (κ × α) :=
  if d.any (fun p => p.1 == k) then
    d.map (fun p => if p.1 == k then (p.1, v) else p)
  else d ++ [(k, v)]

/-- Python slice `l[-n:]`. -/
def last_n {α : Type} (n : Nat) (l : List α) : List α :=
  l.drop (l.length - n)

/-- The loop `all(recent_scores[i] < recent_scores[i+1] for i in
range(len(recent_scores)-1))` of `_analyze_session_patterns`. -/
def pairwise_lt : List ℚ → Bool
  | a :: b :: rest => decide (a < b) && pairwise_lt (b :: rest)
  | _ => true

/-- The risk evaluation of `_analyze_session_patterns` on the updated
history: escalating-trend check with early return, then the
persistent-indicator count, then 0. -/
def session_risk (history : List SessionRecord) : ℚ :=
  let crisis_count := history.countP (fun e => decide (1.0 < e.score))
  if 3 ≤ history.length then
    if pairwise_lt ((last_n 3 history).map (fun e => e.score)) then 0.5
    else if 2 ≤ crisis_count then 0.3 else 0.0
  else if 2 ≤ crisis_count then 0.3 else 0.0

/-- Mirror of `_analyze_session_patterns`: create the session's history if
absent, append the current record, truncate to the last 10, store it back
and evaluate the risk rules on the retained history. -/
def analyze_session_patterns (st : SessionMap) (session_id : String)
    (rec : SessionRecord) : ℚ × SessionMap :=
  let old := match st.lookup session_id with
    | some h => h
    | none => []
  let hist := last_n 10 (old ++ [rec])
  (session_risk hist, dict_set st session_id hist)

/-- A resource bundle: a flat name → contact dict. -/
abbrev RDict := List (String × String)

/-- Python `dst.update(src)`: insert every pair of `src` in order. -/
def dict_update (dst src : RDict) : RDict :=
  src.foldl (fun acc p => dict_set acc p.1 p.2) dst

/-- The `"emergency"` block of `_build_emergency_resources`. -/
def emergency_contacts : RDict :=
  [ ("general_emergency", "999"), ("police", "999"),
    ("ambulance", "999"), ("fire", "999") ]

/-- The `"hospitals"` block of `_build_emergency_resources`. -/
def hospital_contacts : RDict :=
  [ ("sultan_qaboos_hospital", "+968 24211411"),
    ("royal_hospital", "+968 24599000"),
    ("khoula_hospital", "+968 24560441"),
    ("nizwa_hospital", "+968 25431800") ]

/-- The `"mental_health"` block of `_build_emergency_resources`. -/
def mental_health_contacts : RDict :=
  [ ("mental_health_hotline", "مكتوب قريباً"),
    ("psychological_services", "وزارة الصحة - الخدمات النفسية"),
    ("crisis_intervention", "قسم الطوارئ النفسية"),
    ("social_services", "وزارة التنمية الاجتماعية") ]

/-- The `"support"` block of `_build_emergency_resources`. -/
def support_contacts : RDict :=
  [ ("family_guidance", "مراكز الإرشاد الأسري"),
    ("youth_centers", "مراكز الشباب"),
    ("women_centers", "مراكز المرأة"),
    ("community_centers", "المراكز المجتمعية") ]

/-- Mirror of `_get_relevant_resources`: always the general emergency
block; mental-health and hospital blocks when one of suicide, self-harm
or severe depression was detected; the police entry when violence was
detected; always the support block. -/
def get_relevant_resources (crisis_types : List CrisisType) : RDict :=
  let resources := dict_update [] emergency_contacts
  let resources :=
    if [CrisisType.suicide, CrisisType.self_harm, CrisisType.severe_depression].any
        (fun t => crisis_types.contains t) then
      dict_update (dict_update resources mental_health_contacts) hospital_contacts
    else resources
  let resources :=
    if crisis_types.contains CrisisType.violence then
      dict_set resources "police"
        (match emergency_contacts.lookup "police" with
         | some v => v
         | none => "")
    else resources
  dict_update resources support_contacts

/-- The assessment dict built by `assess_crisis_level`. -/
structure Assessment where
  crisis_level : CrisisLevel
  crisis_score : ℚ
  detected_types : List CrisisType
  requires_escalation : Bool
  requires_immediate_intervention : Bool
  session_pattern_risk : ℚ
  emergency_resources : RDict
deriving Repr, DecidableEq

/-- Python truthiness of the `session_id` argument (`None` or the empty
string are falsy). -/
def session_truthy : Option String → Bool
  | none => false
  | some s => !(s == "")

/-- Mirror of `assess_crisis_level` acting on an explicit session map
(the mutable `self.session_history`); the pattern channel's per-call
regex compilation makes the result an `Except`, as an invalid pattern
would raise at call time in Python. -/
def assess_crisis_level (st : SessionMap) (text : String)
    (session_id : Option String) : Except String (Assessment × SessionMap) := do
  let text_lower := py_lower text
  let keyword_results := check_crisis_keywords text_lower
  let pattern_results ← check_crisis_patterns text_lower
  let dialect_results := check_omani_expressions text_lower
  let combined := calculate_combined_score keyword_results pattern_results dialect_results
  let crisis_level := determine_crisis_level combined.total_score combined.types
  let (session_pattern_risk, st') :=
    if session_truthy session_id then
      analyze_session_patterns st
        (match session_id with | some s => s | none => "")
        ⟨combined.total_score, combined.types⟩
    else (0, st)
  pure
    ({ crisis_level := crisis_level
       crisis_score := combined.total_score
       detected_types := combined.types
       requires_escalation :=
         decide (crisis_level = .high ∨ crisis_level = .critical)
       requires_immediate_intervention := decide (crisis_level = .critical)
       session_pattern_risk := session_pattern_risk
       emergency_resources := get_relevant_resources combined.types }, st')


/-! ## Spec-side definitions used to state the claims -/

/-- The Level Classifier of the spec as an explicit ordered decision list:
decidable condition and resulting level; first match wins, default LOW. -/
def level_rules : List ((ℚ → List CrisisType → Bool) × CrisisLevel) :=
  [ (fun s _ => decide (3.0 ≤ s), .critical),
    (fun s ts => decide (CrisisType.suicide ∈ ts ∧ 2.0 ≤ s), .critical),
    (fun s ts => decide (CrisisType.violence ∈ ts ∧ 2.5 ≤ s), .critical),
    (fun s _ => decide (2.0 ≤ s), .high),
    (fun s ts => decide ((CrisisType.suicide ∈ ts ∨ CrisisType.self_harm ∈ ts) ∧ 1.0 ≤ s), .high),
    (fun s _ => decide (1.0 ≤ s), .medium),
    (fun s ts => decide (CrisisType.severe_depression ∈ ts ∧ 0.5 ≤ s), .medium) ]

/-- First matching rule of an ordered decision list, LOW when none fires. -/
def first_match_level : List ((ℚ → List CrisisType → Bool) × CrisisLevel) →
    ℚ → List CrisisType → CrisisLevel
  | [], _, _ => .low
  | (c, lv) :: rest, s, ts => if c s ts then lv else first_match_level rest s ts

/-- The fusion formula as the spec words it:
`combined = 0.3 × lexicon + 0.5 × pattern + 0.4 × dialect`, a channel
without the type contributing 0. -/
def combined_formula (kw pat dia : ChannelResult) (t : CrisisType) : ℚ :=
  0.3 * ch_get kw t + 0.5 * ch_get pat t + 0.4 * ch_get dia t

/-- Escalating trend as the spec words it: the last three recorded total
scores are strictly increasing; histories without three records, and
equal or decreasing triples, yield false. -/
def strict_inc_last3 (history : List SessionRecord) : Bool :=
  match (last_n 3 history).map (fun e => e.score) with
  | [a, b, c] => decide (a < b) && decide (b < c)
  | _ => false

/-- The Session Tracker's risk evaluation as the spec's ordered rule list:
escalating trend → 0.5, else persistent signal → 0.3, else 0. -/
def session_risk_rules (history : List SessionRecord) : ℚ :=
  if 3 ≤ history.length ∧ strict_inc_last3 history = true then 0.5
  else if 2 ≤ history.countP (fun e => decide (1.0 < e.score)) then 0.3
  else 0.0

/-- Variant of `_get_relevant_resources` with the violence branch removed,
used to show that branch never changes the bundle. -/
def get_relevant_resources_sans_violence (crisis_types : List CrisisType) : RDict :=
  let resources := dict_update [] emergency_contacts
  let resources :=
    if [CrisisType.suicide, CrisisType.self_harm, CrisisType.severe_depression].any
        (fun t => crisis_types.contains t) then
      dict_update (dict_update resources mental_health_contacts) hospital_contacts
    else resources
  dict_update resources support_contacts

/-- Invariant of the session map: every stored history has at most 10
records. -/
def hist_bound (st : SessionMap) : Prop := ∀ p ∈ st, p.2.length ≤ 10

/-- The keyword list of a crisis type per the Lexicon Table (empty when
the table has no entry for that type). -/
def keywords_of (t : CrisisType) : List String :=
  match crisis_keywords.lookup t with
  | some kws => kws
  | none => []

/-- Recursive restatement of the pattern-channel fold (the `foldlM` of
`check_crisis_patterns_with`), convenient for induction. -/
def check_crisis_patterns_with_from :
    List (String × CrisisType × ℚ) → ChannelResult → String →
      Except String ChannelResult
  | [], acc, _ => Except.ok acc
  | e :: tl, acc, text =>
    (re_findall_count e.1 text) >>= fun n =>
    (if 0 < n then pure (add_pattern_score acc e.2.1 (n * e.2.2)) else pure acc) >>=
      fun acc2 => check_crisis_patterns_with_from tl acc2 text

/-! ## Helper lemmas -/

/-- Helper: `ch_get` of a result whose keys avoid `t` is 0. -/
theorem ch_get_eq_zero_of_not_mem (r : ChannelResult) (t : CrisisType)
    (h : t ∉ r.map Prod.fst) : ch_get r t = 0 := by
  induction r with
  | nil => rfl
  | cons hd tl ih =>
    simp only [List.map_cons, List.mem_cons, not_or] at h
    simp only [ch_get, List.lookup]
    have hb : (t == hd.1) = false := by simpa [beq_eq_false_iff_ne] using h.1
    rw [hb]
    exact ih h.2

/-- Helper: when every stored value is positive, a type is a key iff its
`ch_get` value is positive. -/
theorem ch_get_pos_iff (r : ChannelResult) (hr : ∀ p ∈ r, 0 < p.2) (t : CrisisType) :
    t ∈ r.map Prod.fst ↔ 0 < ch_get r t := by
  induction r with
  | nil => simp [ch_get]
  | cons hd tl ih =>
    have ihtl : t ∈ tl.map Prod.fst ↔ 0 < ch_get tl t :=
      ih (fun p hp => hr p (by simp [hp]))
    simp only [List.map_cons, List.mem_cons]
    by_cases he : t = hd.1
    · subst he
      simp only [ch_get, List.lookup, beq_self_eq_true]
      simpa using hr hd (by simp)
    · have hb : (t == hd.1) = false := by simpa [beq_eq_false_iff_ne] using he
      simp only [ch_get, List.lookup, hb]
      constructor
      · rintro (h1 | h2)
        · exact absurd h1 he
        · exact ihtl.mp h2
      · intro h
        exact Or.inr (ihtl.mpr h)

/-- Helper: `ch_get` is nonnegative when every stored value is positive. -/
theorem ch_get_nonneg (r : ChannelResult) (hr : ∀ p ∈ r, 0 < p.2) (t : CrisisType) :
    0 ≤ ch_get r t := by
  by_cases h : t ∈ r.map Prod.fst
  · exact le_of_lt ((ch_get_pos_iff r hr t).mp h)
  · rw [ch_get_eq_zero_of_not_mem r t h]

/-- Helper: looking up a key in a key-indexed map of pairs. -/
theorem lookup_map_pair (l : List CrisisType) (g : CrisisType → ℚ) (t : CrisisType)
    (ht : t ∈ l) : (l.map (fun x => (x, g x))).lookup t = some (g t) := by
  induction l with
  | nil => cases ht
  | cons hd tl ih =>
    by_cases he : t = hd
    · subst he
      simp [List.lookup]
    · have hb : (t == hd) = false := by simpa [beq_eq_false_iff_ne] using he
      rcases List.mem_cons.mp ht with he2 | hm
      · exact absurd he2 he
      · simp [List.lookup, hb, ih hm]

/-- Helper: the generic shape of the matcher loops — a fold that appends
`(type, score)` for positive scores equals a `filterMap`. -/
theorem channel_foldl_eq (g : CrisisType × List String → ℚ) :
    ∀ (table : List (CrisisType × List String)) (acc : ChannelResult),
      table.foldl (fun acc p => if 0 < g p then acc ++ [(p.1, g p)] else acc) acc =
        acc ++ table.filterMap (fun p => if 0 < g p then some (p.1, g p) else none) := by
  intro table
  induction table with
  | nil => intro acc; simp
  | cons hd tl ih =>
    intro acc
    rw [List.foldl_cons, ih, List.filterMap_cons]
    split_ifs with h
    · simp
    · rfl

/-- Helper: the keyword channel as a `filterMap` over the Lexicon Table. -/
theorem check_crisis_keywords_eq (text : String) :
    check_crisis_keywords text = crisis_keywords.filterMap
      (fun p => if 0 < keyword_score text p.2 then
        some (p.1, keyword_score text p.2) else none) := by
  rw [check_crisis_keywords]
  exact channel_foldl_eq (fun p => keyword_score text p.2) crisis_keywords []

/-- Helper: the inner keyword loop counts the matching keywords. -/
theorem keyword_score_eq_countP (text : String) (kws : List String) :
    keyword_score text kws = (kws.countP (fun kw => str_in (py_lower kw) text) : ℚ) := by
  rw [keyword_score]
  suffices h : ∀ s : ℚ,
      kws.foldl (fun s kw => if str_in (py_lower kw) text then s + 1 else s) s =
        s + (kws.countP (fun kw => str_in (py_lower kw) text) : ℚ) by
    simpa using h 0
  induction kws with
  | nil => intro s; simp
  | cons hd tl ih =>
    intro s
    rw [List.foldl_cons, List.countP_cons]
    by_cases h : str_in (py_lower hd) text = true
    · simp only [h, if_true]
      rw [ih]
      push_cast
      ring
    · simp only [Bool.not_eq_true] at h
      simp only [h, Bool.false_eq_true, if_false]
      rw [ih]
      push_cast
      ring

/-- Helper: every value stored by the matcher-loop `filterMap` is
positive. -/
theorem filterMap_channel_pos (g : CrisisType × List String → ℚ)
    (table : List (CrisisType × List String)) :
    ∀ p ∈ table.filterMap (fun q => if 0 < g q then some (q.1, g q) else none),
      0 < p.2 := by
  intro p hp
  simp only [List.mem_filterMap] at hp
  obtain ⟨q, hq, hqe⟩ := hp
  by_cases h : 0 < g q
  · simp only [h, if_true, Option.some.injEq] at hqe
    rw [← hqe]
    exact h
  · simp [h] at hqe

/-- Helper: `ch_get` on the matcher-loop `filterMap`, for a table with
distinct keys: the stored score of `t`, clamped to 0 when not positive. -/
theorem ch_get_filterMap (g : CrisisType × List String → ℚ) (t : CrisisType) :
    ∀ table : List (CrisisType × List String), (table.map Prod.fst).Nodup →
      ch_get (table.filterMap (fun p => if 0 < g p then some (p.1, g p) else none)) t =
        (match table.lookup t with
         | some kws => if 0 < g (t, kws) then g (t, kws) else 0
         | none => 0) := by
  intro table
  induction table with
  | nil => intro _; rfl
  | cons hd tl ih =>
    intro hnd
    rw [List.map_cons] at hnd
    have hcons := List.nodup_cons.mp hnd
    have hnd' := hcons.2
    rw [List.filterMap_cons]
    by_cases he : t = hd.1
    · subst he
      have hnotf : hd.1 ∉ (tl.filterMap
          (fun p => if 0 < g p then some (p.1, g p) else none)).map Prod.fst := by
        intro hmem
        apply hcons.1
        simp only [List.mem_map, List.mem_filterMap] at hmem
        obtain ⟨p, ⟨q, hq, hqe⟩, hpe⟩ := hmem
        by_cases h : 0 < g q
        · simp only [h, if_true, Option.some.injEq] at hqe
          rw [← hqe] at hpe
          simp only [List.mem_map]
          exact ⟨q, hq, by simpa using hpe⟩
        · simp [h] at hqe
      simp only [List.lookup, beq_self_eq_true]
      by_cases h : 0 < g hd
      · rw [if_pos h]
        simp only [ch_get, List.lookup, beq_self_eq_true]
        rw [if_pos (by simpa using h)]
      · rw [if_neg h]
        rw [ch_get_eq_zero_of_not_mem _ hd.1 hnotf]
        rw [if_neg (by simpa using h)]
    · have hb : (t == hd.1) = false := by simpa [beq_eq_false_iff_ne] using he
      simp only [List.lookup, hb]
      by_cases h : 0 < g hd
      · rw [if_pos h]
        have hskip : ch_get ((hd.1, g hd) :: tl.filterMap
            (fun p => if 0 < g p then some (p.1, g p) else none)) t =
            ch_get (tl.filterMap
              (fun p => if 0 < g p then some (p.1, g p) else none)) t := by
          simp only [ch_get, List.lookup, hb]
        rw [hskip, ih hnd']
      · rw [if_neg h, ih hnd']

/-- Helper: membership in the fused type union. -/
theorem mem_fused_types (kw pat dia : ChannelResult) (t : CrisisType) :
    t ∈ (calculate_combined_score kw pat dia).types ↔
      (t ∈ kw.map Prod.fst ∨ t ∈ pat.map Prod.fst ∨ t ∈ dia.map Prod.fst) := by
  simp [calculate_combined_score, List.mem_dedup, List.mem_append, or_assoc]

/-- Helper: positivity of the combined formula under positive channel
values. -/
theorem combined_formula_pos_iff (kw pat dia : ChannelResult)
    (hkw : ∀ p ∈ kw, 0 < p.2) (hpat : ∀ p ∈ pat, 0 < p.2)
    (hdia : ∀ p ∈ dia, 0 < p.2) (t : CrisisType) :
    (t ∈ kw.map Prod.fst ∨ t ∈ pat.map Prod.fst ∨ t ∈ dia.map Prod.fst) ↔
      0 < combined_formula kw pat dia t := by
  have h1 := ch_get_nonneg kw hkw t
  have h2 := ch_get_nonneg pat hpat t
  have h3 := ch_get_nonneg dia hdia t
  rw [ch_get_pos_iff kw hkw t, ch_get_pos_iff pat hpat t, ch_get_pos_iff dia hdia t,
    combined_formula]
  constructor
  · rintro (h | h | h) <;> nlinarith
  · intro h
    by_contra hc
    push_neg at hc
    obtain ⟨hc1, hc2, hc3⟩ := hc
    have e1 : ch_get kw t = 0 := le_antisymm hc1 h1
    have e2 : ch_get pat t = 0 := le_antisymm hc2 h2
    have e3 : ch_get dia t = 0 := le_antisymm hc3 h3
    rw [e1, e2, e3] at h
    norm_num at h

/-- Helper: `last_n n` keeps at most `n` elements. -/
theorem last_n_length_le {α : Type} (n : Nat) (l : List α) : (last_n n l).length ≤ n := by
  simp only [last_n, List.length_drop]
  omega

/-- Helper: with at least three records, `last_n 3` keeps exactly three. -/
theorem last_n_three_length (history : List SessionRecord) (h : 3 ≤ history.length) :
    (last_n 3 history).length = 3 := by
  simp only [last_n, List.length_drop]
  omega

/-- Helper: `dict_set` preserves the history bound when the new value is
bounded. -/
theorem hist_bound_dict_set (st : SessionMap) (k : String) (v : List SessionRecord)
    (h : hist_bound st) (hv : v.length ≤ 10) : hist_bound (dict_set st k v) := by
  unfold dict_set
  split
  · intro p hp
    simp only [List.mem_map] at hp
    obtain ⟨q, hq, hfq⟩ := hp
    by_cases hk : q.1 == k
    · simp only [hk, if_true] at hfq
      rw [← hfq]
      exact hv
    · simp only [hk] at hfq
      simp only [Bool.false_eq_true, if_false] at hfq
      rw [← hfq]
      exact h q hq
  · intro p hp
    rcases List.mem_append.mp hp with h1 | h2
    · exact h p h1
    · simp only [List.mem_singleton] at h2
      rw [h2]
      exact hv

/-- Helper: bind on a successful `Except` computation. -/
theorem except_ok_bind {ε α β : Type} (a : α) (f : α → Except ε β) :
    (Except.ok a >>= f) = f a := rfl

/-- Helper: bind on a failed `Except` computation. -/
theorem except_error_bind {ε α β : Type} (e : ε) (f : α → Except ε β) :
    ((Except.error e : Except ε α) >>= f) = Except.error e := rfl

/-- Helper: bind on a pure `Except` computation. -/
theorem except_pure_bind {ε α β : Type} (a : α) (f : α → Except ε β) :
    ((pure a : Except ε α) >>= f) = f a := rfl

/-- Helper: the pattern-channel fold agrees with its recursive
restatement. -/
theorem check_patterns_foldlM_eq_from (text : String) :
    ∀ (table : List (String × CrisisType × ℚ)) (acc : ChannelResult),
      table.foldlM
        (fun acc e => do
          let n ← re_findall_count e.1 text
          if 0 < n then pure (add_pattern_score acc e.2.1 (n * e.2.2)) else pure acc)
        acc = check_crisis_patterns_with_from table acc text := by
  intro table
  induction table with
  | nil => intro acc; rfl
  | cons hd tl ih =>
    intro acc
    rw [List.foldlM_cons, check_crisis_patterns_with_from, bind_assoc]
    congr 1
    funext n
    congr 1
    funext acc2
    exact ih acc2

/-- Helper: the dialect channel as a `filterMap` over the dialect table. -/
theorem check_omani_expressions_eq (text : String) :
    check_omani_expressions text = omani_crisis_expressions.filterMap
      (fun p => if 0 < dialect_score text p.2 then
        some (p.1, dialect_score text p.2) else none) := by
  rw [check_omani_expressions]
  exact channel_foldl_eq (fun p => dialect_score text p.2) omani_crisis_expressions []

/-- Helper: every score reported by the keyword channel is positive. -/
theorem check_crisis_keywords_pos (text : String) :
    ∀ p ∈ check_crisis_keywords text, 0 < p.2 := by
  rw [check_crisis_keywords_eq text]
  exact filterMap_channel_pos _ crisis_keywords

/-- Helper: every score reported by the dialect channel is positive. -/
theorem check_omani_expressions_pos (text : String) :
    ∀ p ∈ check_omani_expressions text, 0 < p.2 := by
  rw [check_omani_expressions_eq text]
  exact filterMap_channel_pos _ omani_crisis_expressions

/-- Helper: `add_pattern_score` keeps all stored scores positive when the
added contribution is positive. -/
theorem add_pattern_score_pos (acc : ChannelResult) (t : CrisisType) (v : ℚ)
    (hacc : ∀ p ∈ acc, 0 < p.2) (hv : 0 < v) :
    ∀ p ∈ add_pattern_score acc t v, 0 < p.2 := by
  unfold add_pattern_score
  split
  · intro p hp
    simp only [List.mem_map] at hp
    obtain ⟨q, hq, hfq⟩ := hp
    by_cases hk : q.1 == t
    · simp only [hk, if_true] at hfq
      rw [← hfq]
      have := hacc q hq
      simpa using add_pos this hv
    · simp only [hk, Bool.false_eq_true, if_false] at hfq
      rw [← hfq]
      exact hacc q hq
  · intro p hp
    rcases List.mem_append.mp hp with h1 | h2
    · exact hacc p h1
    · simp only [List.mem_singleton] at h2
      rw [h2]
      exact hv

/-- Helper: the recursive pattern-channel fold reports only positive
scores, for any table with positive severity weights. -/
theorem check_crisis_patterns_with_pos (text : String) :
    ∀ (table : List (String × CrisisType × ℚ)) (acc : ChannelResult),
      (∀ q ∈ table, 0 < q.2.2) → (∀ p ∈ acc, 0 < p.2) →
      ∀ r, check_crisis_patterns_with_from table acc text = Except.ok r →
        ∀ p ∈ r, 0 < p.2 := by
  intro table
  induction table with
  | nil =>
    intro acc _ hacc r hr
    rw [check_crisis_patterns_with_from] at hr
    simp only [Except.ok.injEq] at hr
    subst hr
    exact hacc
  | cons hd tl ih =>
    intro acc htab hacc r hr
    rw [check_crisis_patterns_with_from] at hr
    cases hn : re_findall_count hd.1 text with
    | error e =>
      rw [hn, except_error_bind] at hr
      cases hr
    | ok n =>
      rw [hn, except_ok_bind] at hr
      by_cases hpos : 0 < n
      · rw [if_pos hpos, except_pure_bind] at hr
        exact ih _ (fun q hq => htab q (by simp [hq]))
          (add_pattern_score_pos acc hd.2.1 (n * hd.2.2)
            hacc (mul_pos (by exact_mod_cast hpos) (htab hd (by simp)))) r hr
      · rw [if_neg hpos, except_pure_bind] at hr
        exact ih _ (fun q hq => htab q (by simp [hq])) hacc r hr

/-- Helper: the engine's own pattern table has positive weights, so a
successful pattern-channel call reports only positive scores. -/
theorem check_crisis_patterns_pos (text : String) (r : ChannelResult)
    (hr : check_crisis_patterns text = Except.ok r) : ∀ p ∈ r, 0 < p.2 := by
  refine check_crisis_patterns_with_pos text crisis_patterns [] ?_ ?_ r ?_
  · intro q hq
    fin_cases hq <;> norm_num
  · intro p hp
    cases hp
  · rw [← check_patterns_foldlM_eq_from]
    exact hr

/-! ## Claim theorems -/

/-- C1: the crisis level returned by `_determine_crisis_level` equals the
first matching rule of the ordered list (total ≥ 3 → CRITICAL; suicide ∧
total ≥ 2 → CRITICAL; violence ∧ total ≥ 2.5 → CRITICAL; total ≥ 2 →
HIGH; (suicide ∨ self-harm) ∧ total ≥ 1 → HIGH; total ≥ 1 → MEDIUM;
severe depression ∧ total ≥ 0.5 → MEDIUM; otherwise LOW), with every
boundary inclusive. -/
theorem C1_level_classifier (s : ℚ) (ts : List CrisisType) :
    determine_crisis_level s ts = first_match_level level_rules s ts := by
  simp only [determine_crisis_level, level_rules, first_match_level, decide_eq_true_eq]

/-- C2: for channel results whose reported scores are positive (as the
three matchers always produce), fusion assigns each type reported by any
channel the combined score 0.3 × lexicon + 0.5 × pattern + 0.4 × dialect
(missing channel contributing 0), the detected types are exactly the
types with positive combined score, and the total is the sum of the
combined scores over those types. -/
theorem C2_score_fusion (kw pat dia : ChannelResult)
    (hkw : ∀ p ∈ kw, 0 < p.2) (hpat : ∀ p ∈ pat, 0 < p.2)
    (hdia : ∀ p ∈ dia, 0 < p.2) :
    (∀ t ∈ (calculate_combined_score kw pat dia).types,
      (calculate_combined_score kw pat dia).scores.lookup t =
        some (combined_formula kw pat dia t)) ∧
    (∀ t, t ∈ (calculate_combined_score kw pat dia).types ↔
      0 < combined_formula kw pat dia t) ∧
    (calculate_combined_score kw pat dia).total_score =
      (((calculate_combined_score kw pat dia).types.filter
          (fun t => decide (0 < combined_formula kw pat dia t))).map
        (combined_formula kw pat dia)).sum := by
  have hmem : ∀ t, t ∈ (calculate_combined_score kw pat dia).types ↔
      0 < combined_formula kw pat dia t := by
    intro t
    rw [mem_fused_types]
    exact combined_formula_pos_iff kw pat dia hkw hpat hdia t
  have hcode : ∀ t, ch_get kw t * 0.3 + ch_get pat t * 0.5 + ch_get dia t * 0.4 =
      combined_formula kw pat dia t := by
    intro t
    rw [combined_formula]
    ring
  refine ⟨?_, hmem, ?_⟩
  · intro t ht
    have ht' : t ∈ (kw.map Prod.fst ++ pat.map Prod.fst ++ dia.map Prod.fst).dedup := ht
    show ((kw.map Prod.fst ++ pat.map Prod.fst ++ dia.map Prod.fst).dedup.map
      (fun t => (t, ch_get kw t * 0.3 + ch_get pat t * 0.5 + ch_get dia t * 0.4))).lookup t
        = some (combined_formula kw pat dia t)
    rw [lookup_map_pair _ _ t ht', hcode t]
  · have hfilter : (calculate_combined_score kw pat dia).types.filter
        (fun t => decide (0 < combined_formula kw pat dia t)) =
        (calculate_combined_score kw pat dia).types := by
      apply List.filter_eq_self.mpr
      intro t ht
      simpa using (hmem t).mp ht
    rw [hfilter]
    show ((((kw.map Prod.fst ++ pat.map Prod.fst ++ dia.map Prod.fst).dedup).map
      (fun t => (t, ch_get kw t * 0.3 + ch_get pat t * 0.5 + ch_get dia t * 0.4))).map
        Prod.snd).sum = _
    rw [List.map_map]
    apply congrArg
    apply List.map_congr_left
    intro t ht
    simp only [Function.comp]
    exact hcode t

/-- Witness for C2 at a concrete input. -/
theorem C2_score_fusion_witness :
    (∀ p ∈ [(CrisisType.suicide, (1 : ℚ))], 0 < p.2) ∧
    (∀ t, t ∈ (calculate_combined_score [(CrisisType.suicide, (1 : ℚ))] [] []).types ↔
      0 < combined_formula [(CrisisType.suicide, (1 : ℚ))] [] [] t) :=
  ⟨by decide,
   (C2_score_fusion [(CrisisType.suicide, (1 : ℚ))] [] []
      (by decide) (by decide) (by decide)).2.1⟩

/-- C3: after appending the current record and truncating to the most
recent 10, the session tracker's risk equals the spec's ordered rule
list: 0.5 when at least three records remain and the last three total
scores are strictly increasing, else 0.3 when at least two retained
records score above 1.0, else 0. -/
theorem C3_session_tracker_rules (st : SessionMap) (sid : String) (rec : SessionRecord) :
    (analyze_session_patterns st sid rec).1 =
      session_risk_rules (last_n 10
        ((match st.lookup sid with | some h => h | none => []) ++ [rec])) := by
  have key : ∀ hist : List SessionRecord, session_risk hist = session_risk_rules hist := by
    intro hist
    unfold session_risk session_risk_rules
    by_cases h3 : 3 ≤ hist.length
    · have hlen : ((last_n 3 hist).map (fun e => e.score)).length = 3 := by
        simp [last_n_three_length hist h3]
      obtain ⟨a, b, c, habc⟩ := List.length_eq_three.mp hlen
      have hpw : pairwise_lt ((last_n 3 hist).map (fun e => e.score)) =
          strict_inc_last3 hist := by
        rw [strict_inc_last3, habc]
        simp [pairwise_lt]
      by_cases hs : strict_inc_last3 hist = true
      · simp [h3, hs, hpw]
      · simp only [Bool.not_eq_true] at hs
        simp [h3, hs, hpw]
    · have hs : strict_inc_last3 hist = false := by
        rw [strict_inc_last3]
        have : ((last_n 3 hist).map (fun e => e.score)).length ≤ 2 := by
          simp only [List.length_map, last_n, List.length_drop]
          omega
        match hm : (last_n 3 hist).map (fun e => e.score) with
        | [] => rw [hm]
        | [_] => rw [hm]
        | [_, _] => rw [hm]
        | _ :: _ :: _ :: _ => rw [hm] at this; simp at this
      simp [h3, hs]
  rw [analyze_session_patterns]
  simp only []
  exact key _

/-- C4: the lexicon channel's raw score for a type is exactly the number
of the type's table keywords occurring in the lowered text (each
matching keyword counting 1, no weight), and a type is reported iff that
count is positive. -/
theorem C4_lexicon_channel (text : String) (t : CrisisType) :
    ch_get (check_crisis_keywords (py_lower text)) t =
      ((keywords_of t).countP (fun kw => str_in (py_lower kw) (py_lower text)) : ℚ) ∧
    (t ∈ (check_crisis_keywords (py_lower text)).map Prod.fst ↔
      0 < (keywords_of t).countP (fun kw => str_in (py_lower kw) (py_lower text))) := by
  have hnd : (crisis_keywords.map Prod.fst).Nodup := by decide
  have hscore : ch_get (check_crisis_keywords (py_lower text)) t =
      ((keywords_of t).countP (fun kw => str_in (py_lower kw) (py_lower text)) : ℚ) := by
    rw [check_crisis_keywords_eq (py_lower text),
      ch_get_filterMap (fun p => keyword_score (py_lower text) p.2) t crisis_keywords hnd]
    rw [keywords_of]
    cases hl : crisis_keywords.lookup t with
    | none => simp
    | some kws =>
      simp only []
      rw [keyword_score_eq_countP (py_lower text) kws]
      by_cases h : 0 < (kws.countP (fun kw => str_in (py_lower kw) (py_lower text)) : ℚ)
      · rw [if_pos h]
      · rw [if_neg h]
        have : kws.countP (fun kw => str_in (py_lower kw) (py_lower text)) = 0 := by
          by_contra hz
          apply h
          exact_mod_cast Nat.pos_of_ne_zero hz
        rw [this]
        simp
  refine ⟨hscore, ?_⟩
  have hpos : ∀ p ∈ check_crisis_keywords (py_lower text), 0 < p.2 := by
    rw [check_crisis_keywords_eq (py_lower text)]
    exact filterMap_channel_pos _ crisis_keywords
  rw [ch_get_pos_iff _ hpos t, hscore]
  exact_mod_cast Iff.rfl

/-- C5: evidence that pattern compilation happens per matcher call, not
at construction — the constructor stores raw pattern strings without
validation, so a syntactically invalid pattern (here the unclosed `"("`)
passes construction and only fails when the matcher runs; the engine's
own nine patterns happen to be valid, which is why no call ever fails in
practice. -/
theorem C5_pattern_compilation_at_call :
    compile_pattern "(" = none ∧
    check_crisis_patterns_with [("(", CrisisType.suicide, 0.9)] "نص" = Except.error "(" ∧
    crisis_patterns.all (fun e => (compile_pattern e.1).isSome) = true := by
  refine ⟨rfl, rfl, ?_⟩
  decide

/-- C6: one tracker step preserves the bound — every stored session
history has at most 10 records, the oldest being evicted on overflow. -/
theorem C6_history_bounded (st : SessionMap) (sid : String) (rec : SessionRecord)
    (h : hist_bound st) : hist_bound (analyze_session_patterns st sid rec).2 := by
  unfold analyze_session_patterns
  exact hist_bound_dict_set st sid _ h (last_n_length_le 10 _)

/-- Witness for C6 at a concrete state. -/
theorem C6_history_bounded_witness : hist_bound ([] : SessionMap) ∧
    hist_bound (analyze_session_patterns [] "s" ⟨0, []⟩).2 :=
  ⟨fun p hp => absurd hp (List.not_mem_nil p),
   C6_history_bounded [] "s" ⟨0, []⟩ (fun p hp => absurd hp (List.not_mem_nil p))⟩

/-- C7: the resource bundle always carries the four general emergency
contacts and the four support contacts; the mental-health and hospital
contacts are present exactly when suicide, self-harm or severe
depression was detected (the police entry, being part of the emergency
block, is always present — see C9 for the violence branch). -/
theorem C7_resource_resolver (ts : List CrisisType) :
    ((get_relevant_resources ts).lookup "general_emergency" = some "999" ∧
     (get_relevant_resources ts).lookup "police" = some "999" ∧
     (get_relevant_resources ts).lookup "ambulance" = some "999" ∧
     (get_relevant_resources ts).lookup "fire" = some "999") ∧
    ((get_relevant_resources ts).lookup "family_guidance" = some "مراكز الإرشاد الأسري" ∧
     (get_relevant_resources ts).lookup "youth_centers" = some "مراكز الشباب" ∧
     (get_relevant_resources ts).lookup "women_centers" = some "مراكز المرأة" ∧
     (get_relevant_resources ts).lookup "community_centers" = some "المراكز المجتمعية") ∧
    ((((get_relevant_resources ts).lookup "mental_health_hotline").isSome = true ∧
      ((get_relevant_resources ts).lookup "psychological_services").isSome = true ∧
      ((get_relevant_resources ts).lookup "crisis_intervention").isSome = true ∧
      ((get_relevant_resources ts).lookup "social_services").isSome = true ∧
      ((get_relevant_resources ts).lookup "sultan_qaboos_hospital").isSome = true ∧
      ((get_relevant_resources ts).lookup "royal_hospital").isSome = true ∧
      ((get_relevant_resources ts).lookup "khoula_hospital").isSome = true ∧
      ((get_relevant_resources ts).lookup "nizwa_hospital").isSome = true) ↔
     (CrisisType.suicide ∈ ts ∨ CrisisType.self_harm ∈ ts ∨
      CrisisType.severe_depression ∈ ts)) := by
  have hcond : ([CrisisType.suicide, CrisisType.self_harm, CrisisType.severe_depression].any
      (fun t => ts.contains t) = true) ↔
      (CrisisType.suicide ∈ ts ∨ CrisisType.self_harm ∈ ts ∨
       CrisisType.severe_depression ∈ ts) := by
    simp
  rw [← hcond]
  by_cases hb : ([CrisisType.suicide, CrisisType.self_harm, CrisisType.severe_depression].any
      (fun t => ts.contains t)) = true
  · by_cases hv : (ts.contains CrisisType.violence) = true
    · simp only [get_relevant_resources, hb, hv]
      decide
    · simp only [Bool.not_eq_true] at hv
      simp only [get_relevant_resources, hb, hv]
      decide
  · simp only [Bool.not_eq_true] at hb
    by_cases hv : (ts.contains CrisisType.violence) = true
    · simp only [get_relevant_resources, hb, hv]
      decide
    · simp only [Bool.not_eq_true] at hv
      simp only [get_relevant_resources, hb, hv]
      decide

/-- C8: without a session id the assessment is a pure function of the
text — the produced assessment does not depend on the session map, the
session map is returned unchanged, and the session pattern risk is 0. -/
theorem C8_assessment_deterministic (st1 st2 : SessionMap) (text : String) :
    Except.map Prod.fst (assess_crisis_level st1 text none) =
      Except.map Prod.fst (assess_crisis_level st2 text none) ∧
    Except.map Prod.snd (assess_crisis_level st1 text none) =
      Except.map (fun _ => st1) (assess_crisis_level st1 text none) ∧
    Except.map (fun p => p.1.session_pattern_risk) (assess_crisis_level st1 text none) =
      Except.map (fun _ => (0 : ℚ)) (assess_crisis_level st1 text none) := by
  cases h : check_crisis_patterns (py_lower text) with
  | error e => simp [assess_crisis_level, h, Except.map]
  | ok v => simp [assess_crisis_level, h, session_truthy, Except.map]

/-- C9: every resource bundle contains the police entry with contact 999
(it is part of the always-included emergency block), and the
violence-specific assignment never changes the bundle. -/
theorem C9_police_always_present (ts : List CrisisType) :
    (get_relevant_resources ts).lookup "police" = some "999" ∧
    get_relevant_resources ts = get_relevant_resources_sans_violence ts := by
  by_cases hm : CrisisType.suicide ∈ ts ∨ CrisisType.self_harm ∈ ts ∨
      CrisisType.severe_depression ∈ ts <;>
    by_cases hv : CrisisType.violence ∈ ts <;>
    constructor <;>
    simp [get_relevant_resources, get_relevant_resources_sans_violence, hm, hv] <;>
    rfl

/-- C10: an empty-string session id is falsy in Python, so the call
behaves exactly like the no-session call and the session map is
unchanged. -/
theorem C10_empty_session_id_stateless (st : SessionMap) (text : String) :
    assess_crisis_level st text (some "") = assess_crisis_level st text none ∧
    Except.map Prod.snd (assess_crisis_level st text (some "")) =
      Except.map (fun _ => st) (assess_crisis_level st text (some "")) := by
  constructor
  · rfl
  · cases h : check_crisis_patterns (py_lower text) with
    | error e => simp [assess_crisis_level, h, Except.map]
    | ok v => simp [assess_crisis_level, h, session_truthy, Except.map]
